import Mathlib

/-!
Verification of the XML request/response translation layer of the
TallyPrime JavaScript SDK (`src/utils/XmlBuilder.js`, the service classes
and `src/connector/TallyConnector.js`).

JavaScript strings are embedded as `List Char`; JavaScript numbers as `ℚ`
(a non-number value, e.g. `undefined` or `NaN`, is embedded as `none` of an
`Option` type where relevant); a possibly-absent object field as `Option`.
JS truthiness on strings: only the empty string is falsy.
-/

abbrev Str := List Char

/-- The apostrophe character (written via its code point). -/
def aposChar : Char := Char.ofNat 39

/-- JS truthiness of a string: every string except `""` is truthy. -/
def truthy (s : Str) : Bool := !s.isEmpty

/-- JS truthiness of a possibly-undefined string. -/
def truthyOpt : Option Str → Bool
  | none => false
  | some s => truthy s

/-- JS `x || y` where `x` is a possibly-undefined string and `y` a string. -/
def jsOrStr (x : Option Str) (y : Str) : Str :=
  match x with
  | some s => if truthy s then s else y
  | none => y

/-- JS `x || ''` on a possibly-undefined string. -/
def jsOrEmpty (x : Option Str) : Str := jsOrStr x []

/-- JS `x || y` on two possibly-undefined strings, returning the first
truthy operand (or `none` when both are falsy). -/
def jsOrOpt (x y : Option Str) : Option Str :=
  if truthyOpt x then x else if truthyOpt y then y else none

/-- A JavaScript value, as far as the translation layer distinguishes them. -/
inductive JsVal where
  | str (s : Str)
  | num (q : ℚ)
  | boolean (b : Bool)
  | nullV
  | undefV
deriving DecidableEq

/-- The xml2js output shape for repeated siblings: a tag holding exactly one
element parses to the element itself, several parse to an array. -/
inductive OneOrMany (α : Type) where
  | one (a : α)
  | many (l : List α)
deriving DecidableEq

/-- `Array.isArray(d) ? d : [d]` — the interpreter's cardinality
normalization step. -/
def toArray {α : Type} : OneOrMany α → List α
  | .one a => [a]
  | .many l => l

/-- Replace every occurrence of the character `c` by the string `r`
(JS `s.replace(/c/g, r)` for a single-character pattern). -/
def replChar (c : Char) (r : Str) : Str → Str
  | [] => []
  | a :: s => (if a = c then r else [a]) ++ replChar c r s

def ampEnt : Str := "&amp;".data
def ltEnt : Str := "&lt;".data
def gtEnt : Str := "&gt;".data
def quotEnt : Str := "&quot;".data
def aposEnt : Str := "&apos;".data

namespace XmlBuilder

/-- `XmlBuilder.escapeXml` (string case): the five sequential global
replacements of `src/utils/XmlBuilder.js`, ampersand first, then `<`, `>`,
`"`, and the apostrophe. -/
def escapeXml (s : Str) : Str :=
  replChar aposChar aposEnt
    (replChar '"' quotEnt
      (replChar '>' gtEnt
        (replChar '<' ltEnt
          (replChar '&' ampEnt s))))

/-- `XmlBuilder.escapeXml` on an arbitrary JS value: a non-string input is
returned unchanged (the `typeof text !== 'string'` guard). -/
def escapeXmlJs : JsVal → JsVal
  | .str s => .str (escapeXml s)
  | v => v

end XmlBuilder

/-- The last four replacement passes of `escapeXml` (everything after the
ampersand pass), split out for reasoning. -/
def escTail (s : Str) : Str :=
  replChar aposChar aposEnt
    (replChar '"' quotEnt
      (replChar '>' gtEnt
        (replChar '<' ltEnt s)))

/-- Character-wise description of the overall escaping map. -/
def escChar (c : Char) : Str :=
  if c = '&' then ampEnt
  else if c = '<' then ltEnt
  else if c = '>' then gtEnt
  else if c = '"' then quotEnt
  else if c = aposChar then aposEnt
  else [c]

/-- The five reserved XML characters. -/
def reservedXmlChars : List Char := ['&', '<', '>', '"', aposChar]

/-- Standard XML unescaping, modelled from the spec: decode the five
standard entities, leave every other character alone. -/
def unescapeXml : Str → Str
  | '&' :: 'a' :: 'm' :: 'p' :: ';' :: rest => '&' :: unescapeXml rest
  | '&' :: 'l' :: 't' :: ';' :: rest => '<' :: unescapeXml rest
  | '&' :: 'g' :: 't' :: ';' :: rest => '>' :: unescapeXml rest
  | '&' :: 'q' :: 'u' :: 'o' :: 't' :: ';' :: rest => '"' :: unescapeXml rest
  | '&' :: 'a' :: 'p' :: 'o' :: 's' :: ';' :: rest => aposChar :: unescapeXml rest
  | c :: rest => c :: unescapeXml rest
  | [] => []

theorem replChar_append (c : Char) (r a b : Str) :
    replChar c r (a ++ b) = replChar c r a ++ replChar c r b := by
  induction a with
  | nil => rfl
  | cons x xs ih => simp [replChar, ih]

theorem escTail_append (a b : Str) : escTail (a ++ b) = escTail a ++ escTail b := by
  simp [escTail, replChar_append]

theorem escapeXml_cons (c : Char) (t : Str) :
    XmlBuilder.escapeXml (c :: t) =
      escTail (if c = '&' then ampEnt else [c]) ++ XmlBuilder.escapeXml t := by
  show escTail (replChar '&' ampEnt (c :: t)) = _
  rw [show replChar '&' ampEnt (c :: t)
      = (if c = '&' then ampEnt else [c]) ++ replChar '&' ampEnt t from rfl]
  rw [escTail_append]
  rfl

theorem escTail_ordinary (c : Char) (h1 : c ≠ '<') (h2 : c ≠ '>')
    (h3 : c ≠ '"') (h4 : c ≠ aposChar) : escTail [c] = [c] := by
  simp [escTail, replChar, h1, h2, h3, h4]

theorem escTail_escHead (c : Char) :
    escTail (if c = '&' then ampEnt else [c]) = escChar c := by
  rcases eq_or_ne c '&' with h | h
  · subst h; decide
  rcases eq_or_ne c '<' with h2 | h2
  · subst h2; decide
  rcases eq_or_ne c '>' with h3 | h3
  · subst h3; decide
  rcases eq_or_ne c '"' with h4 | h4
  · subst h4; decide
  rcases eq_or_ne c aposChar with h5 | h5
  · subst h5; decide
  rw [if_neg h, escTail_ordinary c h2 h3 h4 h5]
  simp [escChar, h, h2, h3, h4, h5]

theorem escapeXml_eq_flatMap (s : Str) :
    XmlBuilder.escapeXml s = s.flatMap escChar := by
  induction s with
  | nil => rfl
  | cons c t ih => rw [escapeXml_cons, ih, escTail_escHead, List.flatMap_cons]

set_option maxHeartbeats 1000000 in
theorem unescape_cons_of_ne (c : Char) (h : c ≠ '&') (rest : Str) :
    unescapeXml (c :: rest) = c :: unescapeXml rest := by
  rw [unescapeXml.eq_def]
  split <;> simp_all

theorem unescapeXml_escapeXml (s : Str) :
    unescapeXml (XmlBuilder.escapeXml s) = s := by
  rw [escapeXml_eq_flatMap]
  induction s with
  | nil => rfl
  | cons c t ih =>
    rw [List.flatMap_cons]
    rcases eq_or_ne c '&' with h | h
    · subst h
      exact (show unescapeXml ('&' :: 'a' :: 'm' :: 'p' :: ';' :: t.flatMap escChar)
        = '&' :: unescapeXml (t.flatMap escChar) from rfl).trans (by rw [ih])
    rcases eq_or_ne c '<' with h2 | h2
    · subst h2
      exact (show unescapeXml ('&' :: 'l' :: 't' :: ';' :: t.flatMap escChar)
        = '<' :: unescapeXml (t.flatMap escChar) from rfl).trans (by rw [ih])
    rcases eq_or_ne c '>' with h3 | h3
    · subst h3
      exact (show unescapeXml ('&' :: 'g' :: 't' :: ';' :: t.flatMap escChar)
        = '>' :: unescapeXml (t.flatMap escChar) from rfl).trans (by rw [ih])
    rcases eq_or_ne c '"' with h4 | h4
    · subst h4
      exact (show unescapeXml ('&' :: 'q' :: 'u' :: 'o' :: 't' :: ';' :: t.flatMap escChar)
        = '"' :: unescapeXml (t.flatMap escChar) from rfl).trans (by rw [ih])
    rcases eq_or_ne c aposChar with h5 | h5
    · subst h5
      exact (show unescapeXml ('&' :: 'a' :: 'p' :: 'o' :: 's' :: ';' :: t.flatMap escChar)
        = aposChar :: unescapeXml (t.flatMap escChar) from rfl).trans (by rw [ih])
    · rw [show escChar c = [c] by simp [escChar, h, h2, h3, h4, h5]]
      rw [List.singleton_append, unescape_cons_of_ne c h, ih]

theorem escapeXml_fixed_of_ordinary (s : Str)
    (h : ∀ c ∈ s, ¬ c ∈ reservedXmlChars) : XmlBuilder.escapeXml s = s := by
  rw [escapeXml_eq_flatMap]
  induction s with
  | nil => rfl
  | cons c t ih =>
    have hc := h c (by simp)
    simp only [reservedXmlChars, List.mem_cons, List.mem_singleton] at hc
    push_neg at hc
    obtain ⟨n1, n2, n3, n4, n5⟩ := hc
    rw [List.flatMap_cons, show escChar c = [c] by
      simp [escChar, n1, n2, n3, n4, by simpa using n5]]
    rw [List.singleton_append]
    rw [ih (fun x hx => h x (by simp [hx]))]

/-- A sample string holding all five reserved characters. -/
def c5SampleStr : Str := ['a', '&', 'x', '<', '>', '"', aposChar, 'b']

/-- C5: `escapeXml` replaces exactly the five reserved XML characters (a
string without any of them is returned unchanged), performs the ampersand
substitution first so no entity ampersand is re-escaped, passes every
non-string input through unchanged, and standard XML unescaping inverts it
on every string. -/
theorem C5_escapeXml_correct :
    (∀ v : JsVal, (∀ s, v ≠ JsVal.str s) → XmlBuilder.escapeXmlJs v = v)
    ∧ (∀ s : Str, (∀ c ∈ s, ¬ c ∈ reservedXmlChars) → XmlBuilder.escapeXml s = s)
    ∧ (∀ s : Str, unescapeXml (XmlBuilder.escapeXml s) = s) := by
  refine ⟨?_, escapeXml_fixed_of_ordinary, unescapeXml_escapeXml⟩
  intro v hv
  cases v with
  | str s => exact absurd rfl (hv s)
  | num q => rfl
  | boolean b => rfl
  | nullV => rfl
  | undefV => rfl

/-- Witness for C5 at concrete inputs (a number, a plain string, and a
string containing all five reserved characters). -/
theorem C5_escapeXml_correct_witness :
    XmlBuilder.escapeXmlJs (JsVal.num 3) = JsVal.num 3
    ∧ XmlBuilder.escapeXml "abc".data = "abc".data
    ∧ unescapeXml (XmlBuilder.escapeXml c5SampleStr) = c5SampleStr :=
  ⟨C5_escapeXml_correct.1 (JsVal.num 3) (fun _ h => JsVal.noConfusion h),
   C5_escapeXml_correct.2.1 "abc".data (by decide),
   C5_escapeXml_correct.2.2 c5SampleStr⟩

/-! ## Date formatting (`XmlBuilder.formatDate`) -/

/-- Decimal digit string of a natural number (JS `Number.prototype.toString`
restricted to naturals, which is how `getDate()`/`getFullYear()` values are
rendered). -/
def natDigits (n : Nat) : Str := Nat.toDigits 10 n

/-- JS `String.prototype.padStart(2, '0')`. -/
def padStart2 (l : Str) : Str :=
  if l.length ≥ 2 then l else List.replicate (2 - l.length) '0' ++ l

/-- The components the source reads off the constructed `Date` object:
`getDate()` (1–31), `getMonth()` (0–11) and `getFullYear()`. Parsing the
incoming string (or `Date`) into these components is done by the external
JS `Date` constructor and is not modelled. -/
structure JsDate where
  day : Nat
  month : Nat
  year : Nat
deriving DecidableEq

/-- The month-abbreviation table of `formatDate`. -/
def monthNames : List Str :=
  ["Jan".data, "Feb".data, "Mar".data, "Apr".data, "May".data, "Jun".data,
   "Jul".data, "Aug".data, "Sep".data, "Oct".data, "Nov".data, "Dec".data]

namespace XmlBuilder

/-- `XmlBuilder.formatDate`: `DD-MMM-YYYY`. An out-of-range month index
renders as `undefined`, as JS interpolation of `months[m]` would. -/
def formatDate (d : JsDate) : Str :=
  padStart2 (natDigits d.day) ++ "-".data
    ++ monthNames.getD d.month "undefined".data ++ "-".data
    ++ natDigits d.year

end XmlBuilder

/-- A valid calendar date as far as `formatDate`'s inputs are concerned. -/
def validDate (d : JsDate) : Prop := 1 ≤ d.day ∧ d.day ≤ 31 ∧ d.month < 12

theorem padStart2_natDigits_len : ∀ n < 32, (padStart2 (natDigits n)).length = 2 := by
  decide

theorem monthNames_len : ∀ m < 12, (monthNames.getD m "undefined".data).length = 3 := by
  decide

theorem padStart2_natDigits_inj :
    ∀ a < 32, ∀ b < 32, padStart2 (natDigits a) = padStart2 (natDigits b) → a = b := by
  decide

theorem monthNames_inj :
    ∀ a < 12, ∀ b < 12,
      monthNames.getD a "undefined".data = monthNames.getD b "undefined".data → a = b := by
  decide

theorem toDigitsCore_step (f n : Nat) (ds : Str) (h : n / 10 ≠ 0) :
    Nat.toDigitsCore 10 (f + 1) n ds
      = Nat.toDigitsCore 10 f (n / 10) (Nat.digitChar (n % 10) :: ds) := by
  simp [Nat.toDigitsCore, h]

theorem toDigitsCore_last (f n : Nat) (ds : Str) (h : n / 10 = 0) :
    Nat.toDigitsCore 10 (f + 1) n ds = Nat.digitChar (n % 10) :: ds := by
  simp [Nat.toDigitsCore, h]

theorem natDigits_year_len (y : Nat) (h1 : 1000 ≤ y) (h2 : y ≤ 9999) :
    (natDigits y).length = 4 := by
  have hf1 : y = y - 1 + 1 := by omega
  show (Nat.toDigitsCore 10 (y + 1) y []).length = 4
  rw [toDigitsCore_step _ _ _ (by omega)]
  set d1 := Nat.digitChar (y % 10) with hd1
  set m1 := y / 10 with hm1
  rw [hf1, toDigitsCore_step _ _ _ (by omega)]
  have hf2 : y - 1 = y - 2 + 1 := by omega
  set d2 := Nat.digitChar (m1 % 10) with hd2
  set m2 := m1 / 10 with hm2
  rw [hf2, toDigitsCore_step _ _ _ (by omega)]
  have hf3 : y - 2 = y - 3 + 1 := by omega
  set d3 := Nat.digitChar (m2 % 10) with hd3
  set m3 := m2 / 10 with hm3
  rw [hf3, toDigitsCore_last _ _ _ (by omega)]
  rfl

/-- C6: `formatDate` renders the zero-padded two-digit day, the
three-letter month abbreviation and the four-digit year joined by hyphens
(5 September 2023 gives `05-Sep-2023`), and is injective on valid calendar
dates within a fixed year. -/
theorem C6_formatDate_correct :
    XmlBuilder.formatDate ⟨5, 8, 2023⟩ = "05-Sep-2023".data
    ∧ (∀ d : JsDate, validDate d →
        (padStart2 (natDigits d.day)).length = 2
        ∧ (monthNames.getD d.month "undefined".data).length = 3
        ∧ (1000 ≤ d.year → d.year ≤ 9999 → (natDigits d.year).length = 4))
    ∧ (∀ d e : JsDate, validDate d → validDate e → d.year = e.year →
        XmlBuilder.formatDate d = XmlBuilder.formatDate e → d = e) := by
  refine ⟨by decide, ?_, ?_⟩
  · rintro d ⟨hd1, hd2, hm⟩
    exact ⟨padStart2_natDigits_len d.day (by omega), monthNames_len d.month hm,
           fun a b => natDigits_year_len d.year a b⟩
  · rintro d e ⟨hd1, hd2, hm⟩ ⟨he1, he2, hem⟩ hy heq
    have hdash : "-".data = ['-'] := rfl
    unfold XmlBuilder.formatDate at heq
    rw [hdash] at heq
    simp only [List.append_assoc, List.singleton_append] at heq
    have l1 : (padStart2 (natDigits d.day)).length = (padStart2 (natDigits e.day)).length := by
      rw [padStart2_natDigits_len d.day (by omega), padStart2_natDigits_len e.day (by omega)]
    obtain ⟨hpad, hrest⟩ := List.append_inj heq l1
    injection hrest with h1 hrest2
    have l2 : (monthNames.getD d.month "undefined".data).length
        = (monthNames.getD e.month "undefined".data).length := by
      rw [monthNames_len d.month hm, monthNames_len e.month hem]
    obtain ⟨hmon, _⟩ := List.append_inj hrest2 l2
    have h_day : d.day = e.day :=
      padStart2_natDigits_inj d.day (by omega) e.day (by omega) hpad
    have h_mon : d.month = e.month := monthNames_inj d.month hm e.month hem hmon
    cases d; cases e; simp_all

/-- Witness for C6 at the date 5 September 2023. -/
theorem C6_formatDate_correct_witness :
    XmlBuilder.formatDate ⟨5, 8, 2023⟩ = "05-Sep-2023".data
    ∧ (padStart2 (natDigits (5 : Nat))).length = 2
    ∧ ((⟨5, 8, 2023⟩ : JsDate) = ⟨5, 8, 2023⟩) :=
  ⟨C6_formatDate_correct.1,
   (C6_formatDate_correct.2.1 ⟨5, 8, 2023⟩ (by simp [validDate])).1,
   C6_formatDate_correct.2.2 ⟨5, 8, 2023⟩ ⟨5, 8, 2023⟩ (by simp [validDate])
     (by simp [validDate]) rfl rfl⟩

/-! ## Numeric rendering (JS template interpolation of numbers) -/

/-- Fractional decimal digits of `q ∈ [0,1)`, with fuel (doubles print at
most 17 significant digits; amounts in this SDK are decimal values). -/
def fracDigits : Nat → ℚ → Str
  | 0, _ => []
  | f + 1, q =>
    if q = 0 then []
    else Nat.digitChar (q * 10).floor.toNat :: fracDigits f (q * 10 - (q * 10).floor)

/-- Decimal rendering of a JS number (exact for the decimal-valued amounts
this SDK handles). -/
def numRender (q : ℚ) : Str :=
  let a : ℚ := |q|
  let fr := fracDigits 20 (a - a.floor)
  (if q < 0 then ['-'] else []) ++ natDigits a.floor.toNat
    ++ (if fr.isEmpty then [] else '.' :: fr)

/-- `Math.abs(entry.amount)` interpolated into a template; an undefined
amount renders as `NaN`. -/
def absRender (x : Option ℚ) : Str :=
  match x with
  | some a => numRender |a|
  | none => "NaN".data

/-- JS `x || y` on numbers (`0` and `undefined` are falsy). -/
def jsOrNum (x : Option ℚ) (y : ℚ) : ℚ :=
  match x with
  | some a => if a = 0 then y else a
  | none => y

/-- `escapeXml` applied to a possibly-undefined field and interpolated: a
missing field passes through `escapeXml` unchanged (non-string) and prints
as `undefined`. -/
def escOpt (o : Option Str) : Str :=
  match o with
  | some s => XmlBuilder.escapeXml s
  | none => "undefined".data

/-- `escapeXml(x || '')`. -/
def escOrEmpty (o : Option Str) : Str := XmlBuilder.escapeXml (jsOrEmpty o)

/-- `formatDate` applied to a possibly-missing date (a missing date makes
`new Date(undefined)` an invalid date, whose components print as below). -/
def fmtDateOpt (d : Option JsDate) : Str :=
  match d with
  | some dd => XmlBuilder.formatDate dd
  | none => "NaN-undefined-NaN".data

/-! ## Builder input records (`ledgerData`, `voucherData`, `stockData`).
The JS field `alias` is called `aliasName` here (`alias` is a Lean
keyword); all other field names match the source. -/

structure OpeningBalanceL where
  amount : Option ℚ
  isBillWise : Bool
  isCostCentre : Bool
deriving DecidableEq

structure LedgerData where
  name : Option Str
  parent : Option Str
  aliasName : Option Str
  openingBalance : Option OpeningBalanceL
deriving DecidableEq

structure VoucherEntryData where
  ledgerName : Option Str
  amount : Option ℚ
  billName : Option Str
  billType : Option Str
deriving DecidableEq

structure VoucherData where
  voucherType : Option Str
  date : Option JsDate
  voucherNumber : Option Str
  narration : Option Str
  ledgerEntries : Option (List VoucherEntryData)
deriving DecidableEq

structure OpeningBalanceS where
  quantity : Option ℚ
  rate : Option ℚ
  value : Option ℚ
deriving DecidableEq

structure StockData where
  name : Option Str
  parent : Option Str
  baseUnits : Option Str
  aliasName : Option Str
  openingBalance : Option OpeningBalanceS
deriving DecidableEq

/-! ## Fixed template segments, transcribed from the backtick templates of
`src/utils/XmlBuilder.js` (`voucherT*`, `stockT*`, `ledgerT*`, `impT*`,
`envT*`) and of the XmlBuilder variant shipped with the connector
(`ledConnT*`, `impConnT*`). Segment `TiSj` is the j-th literal piece of
the i-th template of that builder method, between interpolation holes. -/

def envT0S0 : Str := "<?xml version=\"1.0\" encoding=\"UTF-8\"?>\n<ENVELOPE>\n    <HEADER>\n        <TALLYREQUEST>".data
def envT0S1 : Str := "</TALLYREQUEST>\n    </HEADER>\n    <BODY>\n        ".data
def envT0S2 : Str := "\n    </BODY>\n</ENVELOPE>".data

def impT0S0 : Str := "<IMPORTDATA>\n            ".data
def impT0S1 : Str := "\n        </IMPORTDATA>".data

def voucherT0S0 : Str := "\n            <LEDGERENTRIES.LIST>\n                <OLDAUDITENTRYIDS.LIST TYPE=\"Number\">\n                    <OLDAUDITENTRYIDS>-1</OLDAUDITENTRYIDS>\n                </OLDAUDITENTRYIDS.LIST>\n                <LEDGERNAME>".data
def voucherT0S1 : Str := "</LEDGERNAME>\n                <ISDEEMEDPOSITIVE>".data
def voucherT0S2 : Str := "</ISDEEMEDPOSITIVE>\n                <AMOUNT>".data
def voucherT0S3 : Str := "</AMOUNT>\n                <BILLALLOCATIONS.LIST>\n                    <NAME>".data
def voucherT0S4 : Str := "</NAME>\n                    <BILLTYPE>".data
def voucherT0S5 : Str := "</BILLTYPE>\n                    <AMOUNT>".data
def voucherT0S6 : Str := "</AMOUNT>\n                </BILLALLOCATIONS.LIST>\n            </LEDGERENTRIES.LIST>\n        ".data

def voucherT1S0 : Str := "<TALLYMESSAGE xmlns:UDF=\"TallyUDF\">\n            <VOUCHER REMOTEID=\"\" VCHKEY=\"\" VCHTYPE=\"".data
def voucherT1S1 : Str := "\" ACTION=\"Create\" OBJVIEW=\"Accounting Voucher View\">\n                <OLDAUDITENTRYIDS.LIST TYPE=\"Number\">\n                    <OLDAUDITENTRYIDS>-1</OLDAUDITENTRYIDS>\n                </OLDAUDITENTRYIDS.LIST>\n                <DATE>".data
def voucherT1S2 : Str := "</DATE>\n                <VOUCHERTYPENAME>".data
def voucherT1S3 : Str := "</VOUCHERTYPENAME>\n                <VOUCHERNUMBER>".data
def voucherT1S4 : Str := "</VOUCHERNUMBER>\n                <NARRATION>".data
def voucherT1S5 : Str := "</NARRATION>\n                <PARTYLEDGERNAME></PARTYLEDGERNAME>\n                <VOUCHERTYPENAME>".data
def voucherT1S6 : Str := "</VOUCHERTYPENAME>\n                <REFERENCE></REFERENCE>\n                <PERSISTEDVIEW>Accounting Voucher View</PERSISTEDVIEW>\n                <VCHGSTCLASS/>\n                <ENTEREDBY>SDK</ENTEREDBY>\n                <DIFFACTUALQTY>No</DIFFACTUALQTY>\n                <ISMSTFROMSYNC>No</ISMSTFROMSYNC>\n                <ASORIGINAL>No</ASORIGINAL>\n                <AUDITED>No</AUDITED>\n                <FORJOBCOSTING>No</FORJOBCOSTING>\n                <ISOPTIONAL>No</ISOPTIONAL>\n                <EFFECTIVEDATE>".data
def voucherT1S7 : Str := "</EFFECTIVEDATE>\n                <USEFOREXCISE>No</USEFOREXCISE>\n                <ISFORJOBWORKIN>No</ISFORJOBWORKIN>\n                <ALLOWCONSUMPTION>No</ALLOWCONSUMPTION>\n                <USEFORINTEREST>No</USEFORINTEREST>\n                <USEFORGAINLOSS>No</USEFORGAINLOSS>\n                <USEFORGODOWNTRANSFER>No</USEFORGODOWNTRANSFER>\n                <USEFORCOMPOUND>No</USEFORCOMPOUND>\n                <USEFORSERVICETAX>No</USEFORSERVICETAX>\n                <ISEXCISEVOUCHER>No</ISEXCISEVOUCHER>\n                <EXCISETAXOVERRIDE>No</EXCISETAXOVERRIDE>\n                <USEFORTAXUNITTRANSFER>No</USEFORTAXUNITTRANSFER>\n                <IGNOREPOSVALIDATION>No</IGNOREPOSVALIDATION>\n                <EXCISEOPENING>No</EXCISEOPENING>\n                <USEFORFINALPRODUCTION>No</USEFORFINALPRODUCTION>\n                <ISTDSOVERRIDDEN>No</ISTDSOVERRIDDEN>\n                <ISTCSOVERRIDDEN>No</ISTCSOVERRIDDEN>\n                <ISTDSTCSCASHVCH>No</ISTDSTCSCASHVCH>\n                <INCLUDEADVPYMTVCH>No</INCLUDEADVPYMTVCH>\n                <ISSUBWORKSCONTRACT>No</ISSUBWORKSCONTRACT>\n                <ISVATOVERRIDDEN>No</ISVATOVERRIDDEN>\n                <IGNOREORIGVCHDATE>No</IGNOREORIGVCHDATE>\n                <ISVATPAIDATCUSTOMS>No</ISVATPAIDATCUSTOMS>\n                <ISDECLAREDTOCUSTOMS>No</ISDECLAREDTOCUSTOMS>\n                <ISSERVICETAXOVERRIDDEN>No</ISSERVICETAXOVERRIDDEN>\n                <ISISDVOUCHER>No</ISISDVOUCHER>\n                <ISEXCISEOVERRIDDEN>No</ISEXCISEOVERRIDDEN>\n                <ISEXCISESUPPLYVCH>No</ISEXCISESUPPLYVCH>\n                <ISGSTOVERRIDDEN>No</ISGSTOVERRIDDEN>\n                <GSTNOTEXPORTED>No</GSTNOTEXPORTED>\n                <IGNOREGSTINVALIDATION>No</IGNOREGSTINVALIDATION>\n                <ISVATPRINCIPALACCOUNT>No</ISVATPRINCIPALACCOUNT>\n                <VCHSTATUSISVCHNUMUSED>No</VCHSTATUSISVCHNUMUSED>\n                <VCHGSTCLASS/>\n                <VCHENTRYMODE>Item Invoice</VCHENTRYMODE>\n                <DIFFACTUALQTY>No</DIFFACTUALQTY>\n                <ISMSTFROMSYNC>No</ISMSTFROMSYNC>\n                <ISDELETED>No</ISDELETED>\n                <ISSECURITYONWHENENTERED>No</ISSECURITYONWHENENTERED>\n                <ASORIGINAL>No</ASORIGINAL>\n                <AUDITED>No</AUDITED>\n                <ISCOMMONPARTY>No</ISCOMMONPARTY>\n                <FORJOBCOSTING>No</FORJOBCOSTING>\n                <ISOPTIONAL>No</ISOPTIONAL>\n                <USEFOREXCISE>No</USEFOREXCISE>\n                <ISFORJOBWORKIN>No</ISFORJOBWORKIN>\n                <ALLOWCONSUMPTION>No</ALLOWCONSUMPTION>\n                <USEFORINTEREST>No</USEFORINTEREST>\n                <USEFORGAINLOSS>No</USEFORGAINLOSS>\n                <USEFORGODOWNTRANSFER>No</USEFORGODOWNTRANSFER>\n                <USEFORCOMPOUND>No</USEFORCOMPOUND>\n                <USEFORSERVICETAX>No</USEFORSERVICETAX>\n                <ISEXCISEVOUCHER>No</ISEXCISEVOUCHER>\n                <EXCISETAXOVERRIDE>No</EXCISETAXOVERRIDE>\n                <USEFORTAXUNITTRANSFER>No</USEFORTAXUNITTRANSFER>\n                <IGNOREPOSVALIDATION>No</IGNOREPOSVALIDATION>\n                <EXCISEOPENING>No</EXCISEOPENING>\n                <USEFORFINALPRODUCTION>No</USEFORFINALPRODUCTION>\n                <ISTDSOVERRIDDEN>No</ISTDSOVERRIDDEN>\n                <ISTCSOVERRIDDEN>No</ISTCSOVERRIDDEN>\n                <ISTDSTCSCASHVCH>No</ISTDSTCSCASHVCH>\n                <INCLUDEADVPYMTVCH>No</INCLUDEADVPYMTVCH>\n                <ISSUBWORKSCONTRACT>No</ISSUBWORKSCONTRACT>\n                <ISVATOVERRIDDEN>No</ISVATOVERRIDDEN>\n                <IGNOREORIGVCHDATE>No</IGNOREORIGVCHDATE>\n                <ISVATPAIDATCUSTOMS>No</ISVATPAIDATCUSTOMS>\n                <ISDECLAREDTOCUSTOMS>No</ISDECLAREDTOCUSTOMS>\n                <ISSERVICETAXOVERRIDDEN>No</ISSERVICETAXOVERRIDDEN>\n                <ISISDVOUCHER>No</ISISDVOUCHER>\n                <ISEXCISEOVERRIDDEN>No</ISEXCISEOVERRIDDEN>\n                <ISEXCISESUPPLYVCH>No</ISEXCISESUPPLYVCH>\n                <ISGSTOVERRIDDEN>No</ISGSTOVERRIDDEN>\n                <GSTNOTEXPORTED>No</GSTNOTEXPORTED>\n                <IGNOREGSTINVALIDATION>No</IGNOREGSTINVALIDATION>\n                <ISVATPRINCIPALACCOUNT>No</ISVATPRINCIPALACCOUNT>\n                <VCHSTATUSISVCHNUMUSED>No</VCHSTATUSISVCHNUMUSED>".data
def voucherT1S8 : Str := "\n            </VOUCHER>\n        </TALLYMESSAGE>".data

def stockT0S0 : Str := "\n                <OPENINGBALANCE>".data
def stockT0S1 : Str := "</OPENINGBALANCE>\n                <OPENINGRATE>".data
def stockT0S2 : Str := "</OPENINGRATE>\n                <OPENINGVALUE>".data
def stockT0S3 : Str := "</OPENINGVALUE>".data
def stockT1S0 : Str := "<TALLYMESSAGE xmlns:UDF=\"TallyUDF\">\n            <STOCKITEM NAME=\"".data
def stockT1S1 : Str := "\" RESERVEDNAME=\"\">\n                <OLDAUDITENTRYIDS.LIST TYPE=\"Number\">\n                    <OLDAUDITENTRYIDS>-1</OLDAUDITENTRYIDS>\n                </OLDAUDITENTRYIDS.LIST>\n                <GUID></GUID>\n                <PARENT>".data
def stockT1S2 : Str := "</PARENT>\n                <ALIAS>".data
def stockT1S3 : Str := "</ALIAS>\n                <BASEUNITS>".data
def stockT1S4 : Str := "</BASEUNITS>\n                <ADDITIONALUNITS/>\n                <VAT.VATCLASSIFICATIONNAME/>\n                <VAT.VATASSESSABLEVALUE/>\n                <GST.APPLICABLE/>\n                <GST.HSNCODE/>\n                <GST.TAXABILITY/>\n                <GST.GSTTYPEOFSUPPLY/>\n                <ISCOSTCENTRESON>No</ISCOSTCENTRESON>\n                <ISENTRYTAXAPPLICABLE>No</ISENTRYTAXAPPLICABLE>\n                <ISCOSTTRACKINGON>No</ISCOSTTRACKINGON>\n                <ISUPDATINGTARGETID>No</ISUPDATINGTARGETID>\n                <ASORIGINAL>Yes</ASORIGINAL>\n                <IGNOREPHYSICALDIFFERENCE>No</IGNOREPHYSICALDIFFERENCE>\n                <IGNORENEGATIVESTOCK>No</IGNORENEGATIVESTOCK>\n                <TREATSALESASMANUFACTURED>No</TREATSALESASMANUFACTURED>\n                <TREATPURCHASESASCONSUMED>No</TREATPURCHASESASCONSUMED>\n                <TREATRECEIPTSASREVENUE>No</TREATRECEIPTSASREVENUE>\n                <HASMFGDATE>No</HASMFGDATE>\n                <ALLOWUSEOFEXPIREDITEMS>No</ALLOWUSEOFEXPIREDITEMS>\n                <IGNOREBATCHES>No</IGNOREBATCHES>\n                <IGNOREGODOWNS>No</IGNOREGODOWNS>\n                <CALCONMRP>No</CALCONMRP>\n                <EXCLUDEJRNLFORVALUATION>No</EXCLUDEJRNLFORVALUATION>\n                <ISMAINTAINEDINNATIONALCURRENCY>No</ISMAINTAINEDINNATIONALCURRENCY>\n                <AUDITED>No</AUDITED>\n                <FORPURCHASETAX>No</FORPURCHASETAX>\n                <FORSERVICETAX>No</FORSERVICETAX>\n                <FORVAT>No</FORVAT>\n                <FORROYALTY>No</FORROYALTY>\n                <FOREXCISE>No</FOREXCISE>\n                <FORTDS>No</FORTDS>\n                <FORTCS>No</FORTCS>\n                <FORPURCHASETAX>No</FORPURCHASETAX>\n                <FORSERVICETAX>No</FORSERVICETAX>\n                <FORVAT>No</FORVAT>\n                <FORROYALTY>No</FORROYALTY>\n                <FOREXCISE>No</FOREXCISE>\n                <FORTDS>No</FORTDS>\n                <FORTCS>No</FORTCS>".data
def stockT1S5 : Str := "\n            </STOCKITEM>\n        </TALLYMESSAGE>".data

def ledgerT0S0 : Str := "\n                <OPENINGBALANCE>".data
def ledgerT0S1 : Str := "</OPENINGBALANCE>\n                <ISBILLWISEON>".data
def ledgerT0S2 : Str := "</ISBILLWISEON>\n                <ISCOSTCENTRESON>".data
def ledgerT0S3 : Str := "</ISCOSTCENTRESON>".data
def ledgerT1S0 : Str := "<TALLYMESSAGE xmlns:UDF=\"TallyUDF\">\n            <LEDGER NAME=\"".data
def ledgerT1S1 : Str := "\" RESERVEDNAME=\"\">\n                <OLDAUDITENTRYIDS.LIST TYPE=\"Number\">\n                    <OLDAUDITENTRYIDS>-1</OLDAUDITENTRYIDS>\n                </OLDAUDITENTRYIDS.LIST>\n                <GUID></GUID>\n                <PARENT>".data
def ledgerT1S2 : Str := "</PARENT>\n                <ALIAS>".data
def ledgerT1S3 : Str := "</ALIAS>\n                <USEFORVAT>No</USEFORVAT>\n                <TAXCLASSIFICATIONNAME/>\n                <TAXTYPE>Others</TAXTYPE>\n                <LEDADDLALLOCTYPE/>\n                <GSTTYPE/>\n                <APPROPRIATEFOR/>\n                <SERVICECATEGORY/>\n                <EXCISELEDGERCLASSIFICATION/>\n                <EXCISEDUTYTYPE/>\n                <EXCISENATUREOFPURCHASE/>\n                <LEDGERFBTCATEGORY/>\n                <GST.REGISTRATION.TYPE/>\n                <VATAPPLICABLE/>\n                <VATAPPLICABLE>Applicable</VATAPPLICABLE>\n                <ISBILLWISEON>No</ISBILLWISEON>\n                <ISCOSTCENTRESON>No</ISCOSTCENTRESON>\n                <ISINTERESTON>No</ISINTERESTON>\n                <ALLOWINMOBILE>No</ALLOWINMOBILE>\n                <ISCOSTTRACKINGON>No</ISCOSTTRACKINGON>\n                <ISBENEFICIARYCODEON>No</ISBENEFICIARYCODEON>\n                <ISUPDATINGTARGETID>No</ISUPDATINGTARGETID>\n                <ASORIGINAL>Yes</ASORIGINAL>\n                <ISCONDENSED>No</ISCONDENSED>\n                <AFFECTSSTOCK>No</AFFECTSSTOCK>\n                <USEFORADVPAYMENT>No</USEFORADVPAYMENT>\n                <USEFORCOMPOUND>No</USEFORCOMPOUND>\n                <USEFORVOUCHERTYPEVALIDATION>No</USEFORVOUCHERTYPEVALIDATION>\n                <USEFORBILLWISEBALANCE>No</USEFORBILLWISEBALANCE>\n                <USEFORGODOWN>No</USEFORGODOWN>\n                <USEFORADVVOUCHERTYPEMAPPING>No</USEFORADVVOUCHERTYPEMAPPING>\n                <USEFORSCHEDULETYPEVALIDATION>No</USEFORSCHEDULETYPEVALIDATION>\n                <USEFORKIPADVPAYMENT>No</USEFORKIPADVPAYMENT>\n                <USEFORCREDITDAYSCHK>No</USEFORCREDITDAYSCHK>\n                <USEFORBANKRECONCILIATION>No</USEFORBANKRECONCILIATION>\n                <USEFOREXCISE>No</USEFOREXCISE>\n                <USEFORGAINLOSS>No</USEFORGAINLOSS>\n                <USEFORPURCHASETAX>No</USEFORPURCHASETAX>\n                <USEFORVATPRODUCTTAX>No</USEFORVATPRODUCTTAX>".data
def ledgerT1S4 : Str := "\n            </LEDGER>\n        </TALLYMESSAGE>".data

def ledConnT0S0 : Str := "\n                <OPENINGBALANCE>".data
def ledConnT0S1 : Str := "</OPENINGBALANCE>\n                <ISBILLWISEON>".data
def ledConnT0S2 : Str := "</ISBILLWISEON>\n                <ISCOSTCENTRESON>".data
def ledConnT0S3 : Str := "</ISCOSTCENTRESON>".data
def ledConnT1S0 : Str := "<TALLYMESSAGE xmlns:UDF=\"TallyUDF\">\n            <LEDGER NAME=\"".data
def ledConnT1S1 : Str := "\" ACTION=\"Create\" RESERVEDNAME=\"\">\n                <NAME>".data
def ledConnT1S2 : Str := "</NAME>\n                <PARENT>".data
def ledConnT1S3 : Str := "</PARENT>\n                <ALIAS>".data
def ledConnT1S4 : Str := "</ALIAS>\n                <ISBILLWISEON>".data
def ledConnT1S5 : Str := "</ISBILLWISEON>\n                <AFFECTSSTOCK>No</AFFECTSSTOCK>\n                <USEFORVAT>No</USEFORVAT>\n                ".data
def ledConnT1S6 : Str := "\n            </LEDGER>\n        </TALLYMESSAGE>".data

def impConnT0S0 : Str := "\n                <STATICVARIABLES>\n                    <SVCURRENTCOMPANY>".data
def impConnT0S1 : Str := "</SVCURRENTCOMPANY>\n                </STATICVARIABLES>".data
def impConnT1S0 : Str := "<IMPORTDATA>\n            <REQUESTDESC>\n                <REPORTNAME>".data
def impConnT1S1 : Str := "</REPORTNAME>".data
def impConnT1S2 : Str := "\n            </REQUESTDESC>\n            <REQUESTDATA>\n                ".data
def impConnT1S3 : Str := "\n            </REQUESTDATA>\n        </IMPORTDATA>".data

/-! ## The builders of `src/utils/XmlBuilder.js` -/

namespace XmlBuilder

/-- `XmlBuilder.buildEnvelope`. -/
def buildEnvelope (requestType bodyContent : Str) : Str :=
  envT0S0 ++ requestType ++ envT0S1 ++ bodyContent ++ envT0S2

/-- `XmlBuilder.buildImportRequest` of `src/utils/XmlBuilder.js` (one
argument, no report name and no company scoping). -/
def buildImportRequest (dataXml : Str) : Str :=
  buildEnvelope "Import Data".data (impT0S0 ++ dataXml ++ impT0S1)

/-- `XmlBuilder.buildLedgerXml` of `src/utils/XmlBuilder.js` (the `LEDGER`
element carries no `ACTION` attribute). -/
def buildLedgerXml (l : LedgerData) : Str :=
  let openingBalanceXml : Str :=
    match l.openingBalance with
    | some ob =>
        ledgerT0S0 ++ numRender (jsOrNum ob.amount 0)
          ++ ledgerT0S1 ++ (if ob.isBillWise then "Yes".data else "No".data)
          ++ ledgerT0S2 ++ (if ob.isCostCentre then "Yes".data else "No".data)
          ++ ledgerT0S3
    | none => []
  ledgerT1S0 ++ escOpt l.name ++ ledgerT1S1 ++ escOpt l.parent
    ++ ledgerT1S2 ++ escOrEmpty l.aliasName ++ ledgerT1S3
    ++ openingBalanceXml ++ ledgerT1S4

/-- `entry.amount > 0` (an undefined amount compares false). -/
def amountPositive (x : Option ℚ) : Bool :=
  match x with
  | some a => decide (a > 0)
  | none => false

/-- One `LEDGERENTRIES.LIST` block of `buildVoucherXml`. -/
def buildVoucherEntryXml (entry : VoucherEntryData) : Str :=
  voucherT0S0 ++ escOpt entry.ledgerName
    ++ voucherT0S1 ++ (if amountPositive entry.amount then "Yes".data else "No".data)
    ++ voucherT0S2 ++ absRender entry.amount
    ++ voucherT0S3 ++ escOrEmpty entry.billName
    ++ voucherT0S4 ++ jsOrStr entry.billType "New Ref".data
    ++ voucherT0S5 ++ absRender entry.amount
    ++ voucherT0S6

/-- `XmlBuilder.buildVoucherXml`. The caller guarantees `ledgerEntries` is
an array (`createVoucher` validates before building; a missing array would
make the JS `.map` throw). -/
def buildVoucherXml (v : VoucherData) : Str :=
  let ledgerEntriesXml := (v.ledgerEntries.getD []).flatMap buildVoucherEntryXml
  voucherT1S0 ++ escOpt v.voucherType
    ++ voucherT1S1 ++ fmtDateOpt v.date
    ++ voucherT1S2 ++ escOpt v.voucherType
    ++ voucherT1S3 ++ escOrEmpty v.voucherNumber
    ++ voucherT1S4 ++ escOrEmpty v.narration
    ++ voucherT1S5 ++ escOpt v.voucherType
    ++ voucherT1S6 ++ fmtDateOpt v.date
    ++ voucherT1S7 ++ ledgerEntriesXml
    ++ voucherT1S8

/-- `XmlBuilder.buildStockItemXml` (the `STOCKITEM` element carries no
`ACTION` attribute). -/
def buildStockItemXml (s : StockData) : Str :=
  let openingBalanceXml : Str :=
    match s.openingBalance with
    | some ob =>
        stockT0S0 ++ numRender (jsOrNum ob.quantity 0)
          ++ stockT0S1 ++ numRender (jsOrNum ob.rate 0)
          ++ stockT0S2 ++ numRender (jsOrNum ob.value 0)
          ++ stockT0S3
    | none => []
  stockT1S0 ++ escOpt s.name ++ stockT1S1 ++ escOpt s.parent
    ++ stockT1S2 ++ escOrEmpty s.aliasName ++ stockT1S3 ++ escOpt s.baseUnits
    ++ stockT1S4 ++ openingBalanceXml ++ stockT1S5

end XmlBuilder

/-! ## The XmlBuilder variant shipped alongside `TallyConnector.js` (its
`buildLedgerXml` emits `ACTION="Create"`, its `buildImportRequest` reads
the ambient `TALLY_COMPANY` environment variable). -/

/-- The `options` argument of the connector-variant `buildImportRequest`. -/
structure ImportOptions where
  reportName : Option Str
  companyName : Option Str
deriving DecidableEq

namespace XmlBuilder2

/-- Connector-variant `buildLedgerXml`: the `LEDGER` element carries
`ACTION="Create"`. -/
def buildLedgerXml (l : LedgerData) : Str :=
  let openingBalanceXml : Str :=
    match l.openingBalance with
    | some ob =>
        ledConnT0S0 ++ numRender (jsOrNum ob.amount 0)
          ++ ledConnT0S1 ++ (if ob.isBillWise then "Yes".data else "No".data)
          ++ ledConnT0S2 ++ (if ob.isCostCentre then "Yes".data else "No".data)
          ++ ledConnT0S3
    | none => []
  let billWise : Bool :=
    match l.openingBalance with
    | some ob => ob.isBillWise
    | none => false
  ledConnT1S0 ++ escOpt l.name ++ ledConnT1S1 ++ escOpt l.name
    ++ ledConnT1S2 ++ escOpt l.parent ++ ledConnT1S3 ++ escOrEmpty l.aliasName
    ++ ledConnT1S4 ++ (if billWise then "Yes".data else "No".data)
    ++ ledConnT1S5 ++ openingBalanceXml ++ ledConnT1S6

/-- Connector-variant `buildImportRequest`.  `envTallyCompany` is the
ambient value of `process.env.TALLY_COMPANY` (absent when `none`), read
whenever `options.companyName` is falsy. -/
def buildImportRequest (dataXml : Str) (options : ImportOptions)
    (envTallyCompany : Option Str) : Str :=
  let reportName := jsOrStr options.reportName "All Masters".data
  let companyName := jsOrStr options.companyName (jsOrStr envTallyCompany [])
  let staticVars : Str :=
    if truthy companyName then
      impConnT0S0 ++ XmlBuilder.escapeXml companyName ++ impConnT0S1
    else []
  let bodyContent :=
    impConnT1S0 ++ reportName ++ impConnT1S1 ++ staticVars
      ++ impConnT1S2 ++ dataXml ++ impConnT1S3
  XmlBuilder.buildEnvelope "Import Data".data bodyContent

end XmlBuilder2

/-! ## JS `String.prototype.replace` with a plain-string pattern
(first occurrence only), used by the update operations. -/

/-- Does `pat` occur at the very start of `s`? -/
def leadsWith : Str → Str → Bool
  | [], _ => true
  | _ :: _, [] => false
  | p :: ps, c :: cs => p = c && leadsWith ps cs

/-- Does `pat` occur anywhere in the second argument? -/
def occursIn (pat : Str) : Str → Bool
  | [] => leadsWith pat []
  | c :: t => leadsWith pat (c :: t) || occursIn pat t

/-- JS `s.replace(pat, rep)` for a plain-string `pat`: replace the first
occurrence only; return `s` unchanged when `pat` does not occur. -/
def jsReplaceFirst (pat rep : Str) : Str → Str
  | [] => if leadsWith pat [] then rep else []
  | c :: t =>
      if leadsWith pat (c :: t) then rep ++ (c :: t).drop pat.length
      else c :: jsReplaceFirst pat rep t

theorem leadsWith_append_self (p s : Str) : leadsWith p (p ++ s) = true := by
  induction p with
  | nil => rfl
  | cons a ps ih => simp [leadsWith, ih]

theorem eq_append_drop_of_leadsWith (p : Str) :
    ∀ s : Str, leadsWith p s = true → s = p ++ s.drop p.length := by
  induction p with
  | nil => intro s _; rfl
  | cons a ps ih =>
    intro s h
    cases s with
    | nil => simp [leadsWith] at h
    | cons c cs =>
      simp only [leadsWith, Bool.and_eq_true, decide_eq_true_eq] at h
      obtain ⟨rfl, h2⟩ := h
      simpa using ih cs h2

theorem occursIn_of_leadsWith (pat s : Str) (h : leadsWith pat s = true) :
    occursIn pat s = true := by
  cases s with
  | nil => simpa [occursIn] using h
  | cons c t => simp [occursIn, h]

theorem occursIn_append (pat A B : Str) : occursIn pat (A ++ (pat ++ B)) = true := by
  induction A with
  | nil => exact occursIn_of_leadsWith pat (pat ++ B) (leadsWith_append_self pat B)
  | cons a A ih => simp [occursIn, ih]

theorem jsReplaceFirst_decomp (pat rep : Str) :
    ∀ s : Str, occursIn pat s = true →
      ∃ A B, s = A ++ pat ++ B ∧ jsReplaceFirst pat rep s = A ++ rep ++ B := by
  intro s
  induction s with
  | nil =>
    intro h
    cases pat with
    | nil => exact ⟨[], [], rfl, by simp [jsReplaceFirst, leadsWith]⟩
    | cons p ps => simp [occursIn, leadsWith] at h
  | cons c t ih =>
    intro h
    by_cases hl : leadsWith pat (c :: t) = true
    · refine ⟨[], (c :: t).drop pat.length, ?_, ?_⟩
      · simpa using eq_append_drop_of_leadsWith pat (c :: t) hl
      · simp [jsReplaceFirst, hl]
    · have ht : occursIn pat t = true := by
        simp only [occursIn, Bool.or_eq_true] at h
        rcases h with h | h
        · exact absurd h hl
        · exact h
      obtain ⟨A, B, h1, h2⟩ := ih ht
      refine ⟨c :: A, B, by simp [h1], ?_⟩
      simp [jsReplaceFirst, hl, h2]

theorem jsReplaceFirst_of_not_occurs (pat rep : Str) :
    ∀ s : Str, occursIn pat s = false → jsReplaceFirst pat rep s = s := by
  intro s
  induction s with
  | nil =>
    intro h
    simp only [occursIn] at h
    simp [jsReplaceFirst, h]
  | cons c t ih =>
    intro h
    simp only [occursIn, Bool.or_eq_false_iff] at h
    simp [jsReplaceFirst, h.1, ih h.2]

/-! ## VoucherService: validation and local create path -/

namespace VoucherService

/-- The per-entry loop of `_validateVoucherData`: the first offending entry
determines the error. -/
def validateEntries : List VoucherEntryData → Except Str Unit
  | [] => .ok ()
  | e :: rest =>
    if !truthyOpt e.ledgerName then
      .error "Each ledger entry must have a ledger name".data
    else if e.amount.isNone || e.amount = some 0 then
      .error "Each ledger entry must have a non-zero amount".data
    else validateEntries rest

/-- The signed sum `ledgerEntries.reduce((sum, entry) => sum + entry.amount, 0)`
(only reached when every amount is a number, so the default 0 is inert). -/
def entriesSum (es : List VoucherEntryData) : ℚ :=
  (es.map (fun e => e.amount.getD 0)).sum

/-- `VoucherService._validateVoucherData`, with the checks in source
order.  A missing `ledgerEntries` and a non-array value are both `none`. -/
def validateVoucherData (v : VoucherData) : Except Str Unit :=
  if !truthyOpt v.voucherType then .error "Voucher type is required".data
  else if v.date.isNone then .error "Voucher date is required".data
  else if v.ledgerEntries.isNone then
    .error "Ledger entries are required and must be an array".data
  else
    let entries := v.ledgerEntries.getD []
    if entries.length < 2 then
      .error "At least two ledger entries are required for a voucher".data
    else
      match validateEntries entries with
      | .error e => .error e
      | .ok _ =>
        if |entriesSum entries| > 1 / 100 then
          .error "Voucher debits and credits must balance".data
        else .ok ()

/-- The local (pre-transport) part of `VoucherService.createVoucher`:
validate, then build the voucher XML and wrap it in an import request.
The validation error is raised before either build runs. -/
def createVoucherXml (v : VoucherData) : Except Str Str :=
  match validateVoucherData v with
  | .error e => .error e
  | .ok _ => .ok (XmlBuilder.buildImportRequest (XmlBuilder.buildVoucherXml v))

/-- `VoucherService.updateVoucher`'s textual action swap on the built
voucher XML (`voucherXml.replace('ACTION="Create"', 'ACTION="Alter"')`). -/
def updateVoucherXml (v : VoucherData) : Str :=
  jsReplaceFirst "ACTION=\"Create\"".data "ACTION=\"Alter\"".data
    (XmlBuilder.buildVoucherXml v)

end VoucherService

/-! ## Response interpreter input shapes.  xml2js (with
`explicitArray: false, mergeAttrs: true`) turns the response into a tree;
the interpreter reads the fields modelled below, every tag possibly
absent. -/

/-- A parsed response node as far as `TallyConnector._parseResponse` looks
at it: optional `ENVELOPE` and `BODY` children (each descent falls back to
the node itself) and optional `ERROR`/`LINEERROR` texts; `payload` stands
for everything else in the tree. -/
inductive RNode (α : Type) where
  | mk (envelope : Option (RNode α)) (body : Option (RNode α))
       (error lineerror : Option Str) (payload : α)

def RNode.envelopeF {α : Type} : RNode α → Option (RNode α)
  | .mk e _ _ _ _ => e

def RNode.bodyF {α : Type} : RNode α → Option (RNode α)
  | .mk _ b _ _ _ => b

def RNode.errorF {α : Type} : RNode α → Option Str
  | .mk _ _ e _ _ => e

def RNode.lineerrorF {α : Type} : RNode α → Option Str
  | .mk _ _ _ le _ => le

def RNode.payloadF {α : Type} : RNode α → α
  | .mk _ _ _ _ p => p

/-- `result.ENVELOPE || result`. -/
def envOf {α : Type} (t : RNode α) : RNode α :=
  match t.envelopeF with
  | some e => e
  | none => t

/-- `envelope.BODY || envelope`. -/
def bodyOf {α : Type} (e : RNode α) : RNode α :=
  match e.bodyF with
  | some b => b
  | none => e

namespace TallyConnector

/-- `TallyConnector._parseResponse` after a successful xml2js parse:
reject with `Tally error: <text>` when the body carries a truthy
`ERROR`/`LINEERROR` text, otherwise resolve with the whole tree. -/
def parseResponse {α : Type} (t : RNode α) : Except Str (RNode α) :=
  let body := bodyOf (envOf t)
  match jsOrOpt body.errorF body.lineerrorF with
  | some msg => .error ("Tally error: ".data ++ msg)
  | none => .ok t

/-- `TallyConnector.sendRequest`'s error wrapping around `_parseResponse`
(the transport itself is external). -/
def sendRequest {α : Type} (t : RNode α) : Except Str (RNode α) :=
  match parseResponse t with
  | .error e => .error ("TallyPrime request failed: ".data ++ e)
  | .ok r => .ok r

end TallyConnector

/-- The shape shared by every service entry point: send, then on success
run that operation's field extraction; on failure re-wrap with the
operation's message prefix and extract nothing. -/
def servicePipeline {α β : Type} (opPrefixMsg : Str) (extract : RNode α → β)
    (t : RNode α) : Except Str β :=
  match TallyConnector.sendRequest t with
  | .error e => .error (opPrefixMsg ++ e)
  | .ok r => .ok (extract r)

/-- `p` occurs verbatim inside `s`. -/
def listContains (p s : Str) : Prop := ∃ A B, s = A ++ p ++ B

/-! ## Interpreter payload shapes and field extraction -/

/-- `body.EXPORTDATA.REQUESTDATA.TALLYMESSAGE` wrappers. -/
structure RequestDataWrap (ν : Type) where
  TALLYMESSAGE : Option ν
deriving DecidableEq

structure ExportDataWrap (ν : Type) where
  REQUESTDATA : Option (RequestDataWrap ν)
deriving DecidableEq

structure ServiceBody (ν : Type) where
  EXPORTDATA : Option (ExportDataWrap ν)
deriving DecidableEq

/-- The standard wrapper around a payload node. -/
def wrapBody {ν : Type} (n : ν) : ServiceBody ν := ⟨some ⟨some ⟨some n⟩⟩⟩

/-- `x || 0` on a string-valued tag (the result keeps the string when
truthy, else the number 0). -/
def jsValOrZero (x : Option Str) : JsVal :=
  match x with
  | some s => if truthy s then .str s else .num 0
  | none => .num 0

/-- `parseFloat(x) || 0`: the tag value pre-parsed as a number (`none`
models both a missing tag and a `NaN` parse). -/
def pfOr0 (x : Option ℚ) : ℚ :=
  match x with
  | some q => if q = 0 then 0 else q
  | none => 0

/-- The `TALLYMESSAGE` node of a ledger-detail response, as read by
`LedgerService._parseLedgerResponse`. -/
structure LedgerNode where
  NAME : Option Str
  PARENT : Option Str
  ALIAS : Option Str
  OPENINGBALANCE : Option Str
  ISBILLWISEON : Option Str
  ISCOSTCENTRESON : Option Str
deriving DecidableEq

def emptyLedgerNode : LedgerNode := ⟨none, none, none, none, none, none⟩

/-- The object returned by `_parseLedgerResponse` (field `alias` renamed
`aliasName`; the nested `openingBalance` object is flattened into the
`ob*`/`is*` fields). -/
structure LedgerResult where
  name : Str
  parent : Str
  aliasName : Str
  obAmount : JsVal
  isBillWise : Bool
  isCostCentre : Bool
deriving DecidableEq

namespace LedgerService

/-- `LedgerService._parseLedgerResponse`; `none` models the bare `{}`
returned when the `EXPORTDATA`/`REQUESTDATA` wrappers are absent. -/
def parseLedgerResponse (body : ServiceBody LedgerNode) : Option LedgerResult :=
  match body.EXPORTDATA with
  | some ed =>
    match ed.REQUESTDATA with
    | some rd =>
      let ledgerData := rd.TALLYMESSAGE.getD emptyLedgerNode
      some
        { name := jsOrEmpty ledgerData.NAME
          parent := jsOrEmpty ledgerData.PARENT
          aliasName := jsOrEmpty ledgerData.ALIAS
          obAmount := jsValOrZero ledgerData.OPENINGBALANCE
          isBillWise := ledgerData.ISBILLWISEON = some "Yes".data
          isCostCentre := ledgerData.ISCOSTCENTRESON = some "Yes".data }
    | none => none
  | none => none

end LedgerService

/-- The `TALLYMESSAGE` node of a stock-item-detail response, as read by
`StockItemService._parseStockItemResponse` (numeric tags pre-parsed). -/
structure StockNode where
  NAME : Option Str
  PARENT : Option Str
  ALIAS : Option Str
  BASEUNITS : Option Str
  OPENINGBALANCE : Option ℚ
  OPENINGRATE : Option ℚ
  OPENINGVALUE : Option ℚ
  CLOSINGBALANCE : Option ℚ
  CLOSINGRATE : Option ℚ
  CLOSINGVALUE : Option ℚ
deriving DecidableEq

def emptyStockNode : StockNode :=
  ⟨none, none, none, none, none, none, none, none, none, none⟩

/-- The object returned by `_parseStockItemResponse` (nested balance
objects flattened into `ob*`/`cb*`). -/
structure StockResult where
  name : Str
  parent : Str
  aliasName : Str
  baseUnits : Str
  obQuantity : ℚ
  obRate : ℚ
  obValue : ℚ
  cbQuantity : ℚ
  cbRate : ℚ
  cbValue : ℚ
deriving DecidableEq

namespace StockItemService

/-- `StockItemService._parseStockItemResponse`. -/
def parseStockItemResponse (body : ServiceBody StockNode) : Option StockResult :=
  match body.EXPORTDATA with
  | some ed =>
    match ed.REQUESTDATA with
    | some rd =>
      let stockData := rd.TALLYMESSAGE.getD emptyStockNode
      some
        { name := jsOrEmpty stockData.NAME
          parent := jsOrEmpty stockData.PARENT
          aliasName := jsOrEmpty stockData.ALIAS
          baseUnits := jsOrEmpty stockData.BASEUNITS
          obQuantity := pfOr0 stockData.OPENINGBALANCE
          obRate := pfOr0 stockData.OPENINGRATE
          obValue := pfOr0 stockData.OPENINGVALUE
          cbQuantity := pfOr0 stockData.CLOSINGBALANCE
          cbRate := pfOr0 stockData.CLOSINGRATE
          cbValue := pfOr0 stockData.CLOSINGVALUE }
    | none => none
  | none => none

end StockItemService

/-- One `BILLALLOCATIONS.LIST` node of a voucher entry. -/
structure BillAllocNode where
  NAME : Option Str
  BILLTYPE : Option Str
deriving DecidableEq

/-- One `LEDGERENTRIES.LIST` node, as read by
`VoucherService._parseLedgerEntries`. -/
structure EntryNode where
  LEDGERNAME : Option Str
  ISDEEMEDPOSITIVE : Option Str
  AMOUNT : Option ℚ
  billAllocations : Option BillAllocNode
deriving DecidableEq

/-- An entry as returned by `_parseLedgerEntries`.  `billName`/`billType`
are `Option` because the JS code leaves them `undefined` when a
`BILLALLOCATIONS.LIST` is present without the corresponding child. -/
structure ParsedEntry where
  ledgerName : Str
  amount : ℚ
  billName : Option Str
  billType : Option Str
deriving DecidableEq

namespace VoucherService

/-- `parseFloat(entry.AMOUNT) * (entry.ISDEEMEDPOSITIVE === 'No' ? -1 : 1) || 0`
(a missing or non-numeric amount makes the product `NaN`, which `|| 0`
turns into 0). -/
def parsedSignedAmount (v : Option ℚ) (flag : Option Str) : ℚ :=
  match v with
  | none => 0
  | some q =>
    let x := q * (if flag = some "No".data then -1 else 1)
    if x = 0 then 0 else x

/-- `VoucherService._parseLedgerEntries`. -/
def parseLedgerEntries (d : OneOrMany EntryNode) : List ParsedEntry :=
  (toArray d).map fun entry =>
    { ledgerName := jsOrEmpty entry.LEDGERNAME
      amount := parsedSignedAmount entry.AMOUNT entry.ISDEEMEDPOSITIVE
      billName :=
        match entry.billAllocations with
        | some ba => ba.NAME
        | none => some []
      billType :=
        match entry.billAllocations with
        | some ba => ba.BILLTYPE
        | none => some [] }

end VoucherService

/-! ## Summary parsers (stock summary computes aggregates, voucher summary
reads vendor tags) -/

/-- One item node of a stock-summary response. -/
structure StockSummaryItemNode where
  NAME : Option Str
  PARENT : Option Str
  BASEUNITS : Option Str
  CLOSINGBALANCE : Option ℚ
  CLOSINGVALUE : Option ℚ
  RATE : Option ℚ
deriving DecidableEq

/-- The `TALLYMESSAGE` node of a stock-summary response.
`vendorAggregateTags` stands for any vendor-computed aggregate children
(e.g. a total-value tag) that may be present; the parser never reads
them. -/
structure StockSummaryNode where
  STOCKITEMS : Option (OneOrMany StockSummaryItemNode)
  TALLYMESSAGE : Option (OneOrMany StockSummaryItemNode)
  vendorAggregateTags : List (Str × Str)
deriving DecidableEq

structure StockSummaryItem where
  name : Str
  group : Str
  closingQuantity : ℚ
  closingValue : ℚ
  rate : ℚ
  baseUnits : Str
deriving DecidableEq

structure StockSummary where
  items : List StockSummaryItem
  totalItems : Nat
  totalValue : ℚ
  positiveStock : Nat
  negativeStock : Nat
  zeroStock : Nat
deriving DecidableEq

namespace StockItemService

def mapSummaryItem (item : StockSummaryItemNode) : StockSummaryItem :=
  { name := jsOrEmpty item.NAME
    group := jsOrEmpty item.PARENT
    closingQuantity := pfOr0 item.CLOSINGBALANCE
    closingValue := pfOr0 item.CLOSINGVALUE
    rate := pfOr0 item.RATE
    baseUnits := jsOrEmpty item.BASEUNITS }

/-- `StockItemService._parseStockSummaryResponse`: items are normalized to
an array and every aggregate is computed from the normalized items. -/
def parseStockSummaryResponse (body : ServiceBody StockSummaryNode) : StockSummary :=
  match body.EXPORTDATA with
  | some ed =>
    match ed.REQUESTDATA with
    | some rd =>
      let summaryData := rd.TALLYMESSAGE.getD ⟨none, none, []⟩
      let stockItems :=
        match summaryData.STOCKITEMS with
        | some x => x
        | none =>
          match summaryData.TALLYMESSAGE with
          | some y => y
          | none => .many []
      let items := (toArray stockItems).map mapSummaryItem
      { items := items
        totalItems := items.length
        totalValue := (items.map (fun i => i.closingValue)).sum
        positiveStock := (items.filter (fun i => i.closingQuantity > 0)).length
        negativeStock := (items.filter (fun i => i.closingQuantity < 0)).length
        zeroStock := (items.filter (fun i => i.closingQuantity = 0)).length }
    | none => ⟨[], 0, 0, 0, 0, 0⟩
  | none => ⟨[], 0, 0, 0, 0, 0⟩

end StockItemService

/-- The `TALLYMESSAGE` node of a voucher-summary response.
`otherChildren` stands for whatever per-voucher rows the report carries;
the non-grouped parse path never reads them. -/
structure VoucherSummaryNode where
  TOTALCOUNT : Option Str
  TOTALAMOUNT : Option Str
  AVERAGEAMOUNT : Option Str
  otherChildren : List (Str × Str)
deriving DecidableEq

/-- The non-grouped result of `_parseVoucherSummaryResponse`. -/
structure VoucherSummary where
  totalCount : JsVal
  totalAmount : JsVal
  averageAmount : JsVal
deriving DecidableEq

namespace VoucherService

/-- `VoucherService._parseVoucherSummaryResponse` with
`groupByType = false` (the default); the totals come straight from the
vendor `TOTALCOUNT`/`TOTALAMOUNT`/`AVERAGEAMOUNT` tags via `|| 0`.
`none` models the bare `{}` returned when the wrappers are absent. -/
def parseVoucherSummaryResponse (body : ServiceBody VoucherSummaryNode) :
    Option VoucherSummary :=
  match body.EXPORTDATA with
  | some ed =>
    match ed.REQUESTDATA with
    | some rd =>
      let summaryData := rd.TALLYMESSAGE.getD ⟨none, none, none, []⟩
      some
        { totalCount := jsValOrZero summaryData.TOTALCOUNT
          totalAmount := jsValOrZero summaryData.TOTALAMOUNT
          averageAmount := jsValOrZero summaryData.AVERAGEAMOUNT }
    | none => none
  | none => none

end VoucherService

/-! ## Update merges (`updateLedger` / `updateVoucher` /
`updateStockItem`): `updates.x || current.data.x` on every field -/

/-- The `updates` argument of `updateLedger`. -/
structure LedgerUpdates where
  parent : Option Str
  aliasName : Option Str
  openingBalance : Option OpeningBalanceL
deriving DecidableEq

/-- The previously fetched `currentLedger.data` fields the merge reads. -/
structure LedgerFetchData where
  parent : Str
  aliasName : Str
  openingBalance : OpeningBalanceL
deriving DecidableEq

structure MergedLedger where
  name : Str
  parent : Str
  aliasName : Str
  openingBalance : OpeningBalanceL
deriving DecidableEq

namespace LedgerService

/-- The merge step of `LedgerService.updateLedger`. -/
def mergeLedgerUpdate (ledgerName : Str) (updates : LedgerUpdates)
    (current : LedgerFetchData) : MergedLedger :=
  { name := ledgerName
    parent := jsOrStr updates.parent current.parent
    aliasName := jsOrStr updates.aliasName current.aliasName
    openingBalance := updates.openingBalance.getD current.openingBalance }

/-- `LedgerService.updateLedger`'s textual action swap applied to the
utils builder's output (whose `LEDGER` element carries no `ACTION`). -/
def updateLedgerXml (l : LedgerData) : Str :=
  jsReplaceFirst "ACTION=\"Create\"".data "ACTION=\"Alter\"".data
    (XmlBuilder.buildLedgerXml l)

/-- The same action swap applied to the connector-variant builder's output
(whose `LEDGER` element carries `ACTION="Create"`). -/
def updateLedgerXmlConn (l : LedgerData) : Str :=
  jsReplaceFirst "ACTION=\"Create\"".data "ACTION=\"Alter\"".data
    (XmlBuilder2.buildLedgerXml l)

end LedgerService

/-- The `updates` argument of `updateVoucher`. -/
structure VoucherUpdates where
  date : Option Str
  narration : Option Str
  ledgerEntries : Option (List VoucherEntryData)
deriving DecidableEq

/-- The previously fetched `currentVoucher.data` fields the merge reads. -/
structure VoucherFetchData where
  date : Str
  narration : Str
  ledgerEntries : List VoucherEntryData
deriving DecidableEq

structure MergedVoucher where
  voucherType : Str
  voucherNumber : Str
  date : Str
  narration : Str
  ledgerEntries : List VoucherEntryData
deriving DecidableEq

namespace VoucherService

/-- The merge step of `VoucherService.updateVoucher` (note: an empty entry
array is truthy in JS, so `some []` is kept). -/
def mergeVoucherUpdate (voucherNumber voucherType : Str)
    (updates : VoucherUpdates) (current : VoucherFetchData) : MergedVoucher :=
  { voucherType := voucherType
    voucherNumber := voucherNumber
    date := jsOrStr updates.date current.date
    narration := jsOrStr updates.narration current.narration
    ledgerEntries :=
      match updates.ledgerEntries with
      | some l => l
      | none => current.ledgerEntries }

end VoucherService

/-- The `updates` argument of `updateStockItem`. -/
structure StockUpdates where
  parent : Option Str
  baseUnits : Option Str
  aliasName : Option Str
  openingBalance : Option OpeningBalanceS
deriving DecidableEq

/-- The previously fetched `currentItem.data` fields the merge reads. -/
structure StockFetchData where
  parent : Str
  baseUnits : Str
  aliasName : Str
  openingBalance : OpeningBalanceS
deriving DecidableEq

structure MergedStock where
  name : Str
  parent : Str
  baseUnits : Str
  aliasName : Str
  openingBalance : OpeningBalanceS
deriving DecidableEq

namespace StockItemService

/-- The merge step of `StockItemService.updateStockItem`. -/
def mergeStockUpdate (stockItemName : Str) (updates : StockUpdates)
    (current : StockFetchData) : MergedStock :=
  { name := stockItemName
    parent := jsOrStr updates.parent current.parent
    baseUnits := jsOrStr updates.baseUnits current.baseUnits
    aliasName := jsOrStr updates.aliasName current.aliasName
    openingBalance := updates.openingBalance.getD current.openingBalance }

/-- `StockItemService.updateStockItem`'s textual action swap on the built
stock-item XML. -/
def updateStockItemXml (s : StockData) : Str :=
  jsReplaceFirst "ACTION=\"Create\"".data "ACTION=\"Alter\"".data
    (XmlBuilder.buildStockItemXml s)

end StockItemService

/-! ## Claim theorems -/

/-- C2: the voucher builder emits `|a|` plus a deemed-positive flag that is
`Yes` exactly when `a > 0`, and the entry parser applied to that pair
recovers the signed amount `a` (treating the amount as positive whenever
the flag is not exactly `No`).  (The decimal rendering of `|a|` on the
wire and its `parseFloat` are the identity on numbers and are elided.) -/
theorem C2_entry_amount_roundtrip (a : ℚ) (h : a ≠ 0) :
    ((XmlBuilder.amountPositive (some a) = true) ↔ a > 0)
    ∧ VoucherService.parsedSignedAmount (some |a|)
        (some (if XmlBuilder.amountPositive (some a) then "Yes".data else "No".data)) = a
    ∧ (∀ fl : Option Str, fl ≠ some "No".data →
        VoucherService.parsedSignedAmount (some |a|) fl = |a|) := by
  refine ⟨by simp [XmlBuilder.amountPositive], ?_, ?_⟩
  · rcases lt_or_gt_of_ne h with hlt | hgt
    · have hflag : XmlBuilder.amountPositive (some a) = false := by
        simp [XmlBuilder.amountPositive]
        linarith
      rw [hflag]
      have hyn : ("No".data ≠ "Yes".data) := by decide
      simp only [Bool.false_eq_true, if_false, VoucherService.parsedSignedAmount,
        if_pos rfl]
      rw [abs_of_neg hlt]
      simp [h]
    · have hflag : XmlBuilder.amountPositive (some a) = true := by
        simp [XmlBuilder.amountPositive, hgt]
      rw [hflag]
      have hne : (some "Yes".data ≠ some "No".data) := by decide
      simp only [if_true, VoucherService.parsedSignedAmount, if_neg hne]
      rw [abs_of_pos hgt]
      simp [h]
  · intro fl hfl
    simp [VoucherService.parsedSignedAmount, hfl, abs_ne_zero.mpr h]

/-- Witness for C2 at `a = -118` and a missing flag. -/
theorem C2_entry_amount_roundtrip_witness :
    VoucherService.parsedSignedAmount (some |(-118 : ℚ)|)
        (some (if XmlBuilder.amountPositive (some (-118 : ℚ)) then "Yes".data
               else "No".data)) = (-118 : ℚ)
    ∧ VoucherService.parsedSignedAmount (some |(-118 : ℚ)|) none = |(-118 : ℚ)| :=
  ⟨(C2_entry_amount_roundtrip (-118) (by norm_num)).2.1,
   (C2_entry_amount_roundtrip (-118) (by norm_num)).2.2 none (by simp)⟩

theorem jsOrStr_falsy (x : Option Str) (y : Str) (h : truthyOpt x = false) :
    jsOrStr x y = y := by
  cases x with
  | none => rfl
  | some s =>
    simp only [truthyOpt] at h
    simp [jsOrStr, h]

theorem jsOrStr_ne_nil (x : Option Str) (y : Str) (h : y ≠ []) :
    jsOrStr x y ≠ [] := by
  cases x with
  | none => exact h
  | some s =>
    by_cases hs : truthy s
    · simp only [jsOrStr, if_pos hs]
      simpa [truthy, List.isEmpty_iff] using hs
    · simp [jsOrStr, hs, h]

/-- C10: in every update merge a falsy updated field (absent, or supplied
as the empty string) silently keeps the previously fetched value, so an
optional field that currently holds a non-empty value can never be cleared
to empty through an update. -/
theorem C10_update_merge_retains :
    (∀ (nm : Str) (u : LedgerUpdates) (cur : LedgerFetchData),
       (truthyOpt u.aliasName = false →
          (LedgerService.mergeLedgerUpdate nm u cur).aliasName = cur.aliasName)
       ∧ (truthyOpt u.parent = false →
          (LedgerService.mergeLedgerUpdate nm u cur).parent = cur.parent)
       ∧ (cur.aliasName ≠ [] →
          (LedgerService.mergeLedgerUpdate nm u cur).aliasName ≠ []))
    ∧ (∀ (vn vt : Str) (u : VoucherUpdates) (cur : VoucherFetchData),
       (truthyOpt u.narration = false →
          (VoucherService.mergeVoucherUpdate vn vt u cur).narration = cur.narration)
       ∧ (truthyOpt u.date = false →
          (VoucherService.mergeVoucherUpdate vn vt u cur).date = cur.date)
       ∧ (cur.narration ≠ [] →
          (VoucherService.mergeVoucherUpdate vn vt u cur).narration ≠ []))
    ∧ (∀ (nm : Str) (u : StockUpdates) (cur : StockFetchData),
       (truthyOpt u.aliasName = false →
          (StockItemService.mergeStockUpdate nm u cur).aliasName = cur.aliasName)
       ∧ (truthyOpt u.baseUnits = false →
          (StockItemService.mergeStockUpdate nm u cur).baseUnits = cur.baseUnits)
       ∧ (cur.aliasName ≠ [] →
          (StockItemService.mergeStockUpdate nm u cur).aliasName ≠ [])) := by
  refine ⟨fun nm u cur => ⟨?_, ?_, ?_⟩, fun vn vt u cur => ⟨?_, ?_, ?_⟩,
          fun nm u cur => ⟨?_, ?_, ?_⟩⟩
  · exact fun h => jsOrStr_falsy _ _ h
  · exact fun h => jsOrStr_falsy _ _ h
  · exact fun h => jsOrStr_ne_nil _ _ h
  · exact fun h => jsOrStr_falsy _ _ h
  · exact fun h => jsOrStr_falsy _ _ h
  · exact fun h => jsOrStr_ne_nil _ _ h
  · exact fun h => jsOrStr_falsy _ _ h
  · exact fun h => jsOrStr_falsy _ _ h
  · exact fun h => jsOrStr_ne_nil _ _ h

/-- Witness for C10: an explicit empty-string alias update keeps the old
alias. -/
theorem C10_update_merge_retains_witness :
    (LedgerService.mergeLedgerUpdate "L".data ⟨none, some [], none⟩
        ⟨"G".data, "Old".data, ⟨none, false, false⟩⟩).aliasName = "Old".data
    ∧ (LedgerService.mergeLedgerUpdate "L".data ⟨none, some [], none⟩
        ⟨"G".data, "Old".data, ⟨none, false, false⟩⟩).aliasName ≠ [] :=
  ⟨((C10_update_merge_retains.1 "L".data ⟨none, some [], none⟩
      ⟨"G".data, "Old".data, ⟨none, false, false⟩⟩).1 (by decide)),
   ((C10_update_merge_retains.1 "L".data ⟨none, some [], none⟩
      ⟨"G".data, "Old".data, ⟨none, false, false⟩⟩).2.2 (by decide))⟩

set_option maxRecDepth 40000 in
/-- C9 counterexample: the connector-variant `buildImportRequest`, called
twice with identical arguments (no `companyName` option), returns
different strings depending on the ambient `TALLY_COMPANY` value, so the
two-run noninterference claim fails as stated. -/
theorem C9_env_counterexample :
    XmlBuilder2.buildImportRequest "x".data ⟨none, none⟩ (some "A".data)
      ≠ XmlBuilder2.buildImportRequest "x".data ⟨none, none⟩ none := by
  decide

/-- C9 (amended): a builder call's output depends only on its arguments
and the `TALLY_COMPANY` environment value; in particular, whenever a
truthy `companyName` option is supplied, the connector-variant
`buildImportRequest` is independent of the environment. -/
theorem C9_noninterference_amended (dataXml : Str) (opts : ImportOptions)
    (env1 env2 : Option Str) (h : truthyOpt opts.companyName = true) :
    XmlBuilder2.buildImportRequest dataXml opts env1
      = XmlBuilder2.buildImportRequest dataXml opts env2 := by
  obtain ⟨rn, cn⟩ := opts
  cases cn with
  | none => simp [truthyOpt] at h
  | some s =>
    simp only [truthyOpt] at h
    simp [XmlBuilder2.buildImportRequest, jsOrStr, h]

/-- Witness for C9 (amended) with an explicit company option and two
different environment values. -/
theorem C9_noninterference_amended_witness :
    XmlBuilder2.buildImportRequest "x".data ⟨none, some "Acme".data⟩ (some "A".data)
      = XmlBuilder2.buildImportRequest "x".data ⟨none, some "Acme".data⟩ none :=
  C9_noninterference_amended "x".data ⟨none, some "Acme".data⟩ (some "A".data) none
    (by decide)

/-- C3 (amended): for every response whose body carries an `ERROR` or
`LINEERROR` tag with truthy (non-empty) text, every interpreter entry
point — modelled as the send/parse pipeline composed with an arbitrary
field-extraction function — rejects with an error whose message carries
that tag's exact text, and the extraction is never run. -/
theorem C3_error_responses_raise {α β : Type} (t : RNode α) (msg : Str)
    (h : jsOrOpt (bodyOf (envOf t)).errorF (bodyOf (envOf t)).lineerrorF = some msg)
    (opPrefixMsg : Str) (extract : RNode α → β) :
    servicePipeline opPrefixMsg extract t
      = .error (opPrefixMsg
          ++ ("TallyPrime request failed: ".data ++ ("Tally error: ".data ++ msg)))
    ∧ listContains msg (opPrefixMsg
          ++ ("TallyPrime request failed: ".data ++ ("Tally error: ".data ++ msg))) := by
  constructor
  · simp [servicePipeline, TallyConnector.sendRequest, TallyConnector.parseResponse, h]
  · exact ⟨opPrefixMsg ++ "TallyPrime request failed: ".data ++ "Tally error: ".data, [],
      by simp [List.append_assoc]⟩

/-- The spec's example error response (body-level `ERROR` tag). -/
def c3ErrTree : RNode Unit :=
  .mk none none (some "Parent group does not exist".data) none ()

/-- Witness for C3 at the spec's example error text, with a ledger-fetch
shaped pipeline. -/
theorem C3_error_responses_raise_witness :
    servicePipeline "Failed to fetch ledger: ".data (fun r => r.payloadF) c3ErrTree
      = .error ("Failed to fetch ledger: ".data
          ++ ("TallyPrime request failed: ".data
            ++ ("Tally error: ".data ++ "Parent group does not exist".data)))
    ∧ listContains "Parent group does not exist".data
        ("Failed to fetch ledger: ".data
          ++ ("TallyPrime request failed: ".data
            ++ ("Tally error: ".data ++ "Parent group does not exist".data))) :=
  C3_error_responses_raise c3ErrTree "Parent group does not exist".data (by decide)
    "Failed to fetch ledger: ".data (fun r => r.payloadF)

/-- A response whose body carries an `ERROR` tag with empty text. -/
def c3EmptyErrTree : RNode Unit := .mk none none (some []) none ()

/-- C3 counterexample: a body carrying an `ERROR` tag whose text is empty
is *not* rejected — `body.ERROR || body.LINEERROR` is falsy on the empty
string — so the claim as stated (rejection for every response carrying an
error tag) fails. -/
theorem C3_empty_error_counterexample :
    TallyConnector.parseResponse c3EmptyErrTree = .ok c3EmptyErrTree := rfl

/-- The entry node used in the C4 counterexample: a `BILLALLOCATIONS.LIST`
is present but carries no `NAME`/`BILLTYPE` children. -/
def c4EntryNode : EntryNode := ⟨some "A".data, none, some 5, some ⟨none, none⟩⟩

/-- C4 counterexample: when a `BILLALLOCATIONS.LIST` node is present but
its `NAME` tag is missing, `_parseLedgerEntries` yields an undefined
`billName` (here `none`), not the empty-string default the claim
promises. -/
theorem C4_billName_counterexample :
    (VoucherService.parseLedgerEntries (.many [c4EntryNode])).map ParsedEntry.billName
      ≠ [some []] := by decide

/-- C4 (amended): every missing tag yields the typed default — empty
string for string fields, 0 for numeric fields, `false` for `Yes`/`No`
flags — and extraction is total (never raises); the one exception is that
`billName`/`billType` are `undefined` rather than the empty string when a
`BILLALLOCATIONS.LIST` is present without the corresponding child (they
default to the empty string only when the whole list is absent). -/
theorem C4_missing_tags_default_amended :
    (∀ n : LedgerNode, ∃ r, LedgerService.parseLedgerResponse (wrapBody n) = some r
       ∧ (n.NAME = none → r.name = [])
       ∧ (n.PARENT = none → r.parent = [])
       ∧ (n.ALIAS = none → r.aliasName = [])
       ∧ (n.OPENINGBALANCE = none → r.obAmount = .num 0)
       ∧ (n.ISBILLWISEON = none → r.isBillWise = false)
       ∧ (n.ISCOSTCENTRESON = none → r.isCostCentre = false))
    ∧ (∀ n : StockNode, ∃ r, StockItemService.parseStockItemResponse (wrapBody n) = some r
       ∧ (n.NAME = none → r.name = [])
       ∧ (n.BASEUNITS = none → r.baseUnits = [])
       ∧ (n.OPENINGBALANCE = none → r.obQuantity = 0)
       ∧ (n.CLOSINGVALUE = none → r.cbValue = 0))
    ∧ (∀ e : EntryNode, ∀ pe ∈ VoucherService.parseLedgerEntries (.one e),
       (e.LEDGERNAME = none → pe.ledgerName = [])
       ∧ (e.AMOUNT = none → pe.amount = 0)
       ∧ (e.billAllocations = none → pe.billName = some [] ∧ pe.billType = some [])
       ∧ (∀ ba, e.billAllocations = some ba →
           pe.billName = ba.NAME ∧ pe.billType = ba.BILLTYPE)) := by
  refine ⟨?_, ?_, ?_⟩
  · intro n
    refine ⟨_, rfl, ?_, ?_, ?_, ?_, ?_, ?_⟩ <;> intro h <;>
      simp [h, jsOrEmpty, jsOrStr, jsValOrZero]
  · intro n
    refine ⟨_, rfl, ?_, ?_, ?_, ?_⟩ <;> intro h <;>
      simp [h, jsOrEmpty, jsOrStr, pfOr0]
  · intro e pe hpe
    simp only [VoucherService.parseLedgerEntries, toArray, List.map_cons, List.map_nil,
      List.mem_singleton] at hpe
    subst hpe
    refine ⟨?_, ?_, ?_, ?_⟩
    · intro h; simp [h, jsOrEmpty, jsOrStr]
    · intro h; simp [h, VoucherService.parsedSignedAmount]
    · intro h; simp [h]
    · intro ba h; simp [h]

/-- Witness for C4 (amended) at an all-absent ledger node and an entry
node with an empty bill-allocation list. -/
theorem C4_missing_tags_default_amended_witness :
    (∃ r, LedgerService.parseLedgerResponse (wrapBody emptyLedgerNode) = some r
       ∧ r.name = [])
    ∧ (∀ pe ∈ VoucherService.parseLedgerEntries (.one c4EntryNode),
        pe.billName = some "B".data → False) := by
  constructor
  · obtain ⟨r, h1, h2, -⟩ := C4_missing_tags_default_amended.1 emptyLedgerNode
    exact ⟨r, h1, h2 rfl⟩
  · intro pe hpe hname
    obtain ⟨-, -, -, h4⟩ := C4_missing_tags_default_amended.2.2 c4EntryNode pe hpe
    have := (h4 ⟨none, none⟩ rfl).1
    rw [hname] at this
    cases this

/-- Two voucher-summary nodes identical in every child except the
vendor-computed `TOTALCOUNT` tag. -/
def c8Node1 : VoucherSummaryNode :=
  ⟨some "7".data, none, none, [("VOUCHER".data, "X".data)]⟩

def c8Node2 : VoucherSummaryNode :=
  ⟨some "3".data, none, none, [("VOUCHER".data, "X".data)]⟩

/-- C8 counterexample: two voucher-summary responses with identical
normalized item content but different vendor `TOTALCOUNT` tags parse to
different aggregates — the voucher-summary totals are taken from the
vendor tags, not computed over the sequence, refuting the claim. -/
theorem C8_voucherSummary_counterexample :
    c8Node1.otherChildren = c8Node2.otherChildren
    ∧ VoucherService.parseVoucherSummaryResponse (wrapBody c8Node1)
        ≠ VoucherService.parseVoucherSummaryResponse (wrapBody c8Node2) := by
  decide

/-- C8 (amended): the stock-summary aggregates (total value and the
positive/negative/zero closing-quantity counts) are computed over the
normalized item sequence and ignore any vendor aggregate tags, but the
voucher-summary totals are taken directly from the vendor
`TOTALCOUNT`/`TOTALAMOUNT`/`AVERAGEAMOUNT` tags (defaulting to 0) and
ignore the response's item content. -/
theorem C8_summary_aggregates_amended :
    (∀ (n : StockSummaryNode) (v1 v2 : List (Str × Str)),
        StockItemService.parseStockSummaryResponse
            (wrapBody { n with vendorAggregateTags := v1 })
          = StockItemService.parseStockSummaryResponse
              (wrapBody { n with vendorAggregateTags := v2 }))
    ∧ (∀ n : StockSummaryNode,
        (StockItemService.parseStockSummaryResponse (wrapBody n)).totalValue
          = ((StockItemService.parseStockSummaryResponse (wrapBody n)).items.map
              (fun i => i.closingValue)).sum
        ∧ (StockItemService.parseStockSummaryResponse (wrapBody n)).totalItems
          = (StockItemService.parseStockSummaryResponse (wrapBody n)).items.length
        ∧ (StockItemService.parseStockSummaryResponse (wrapBody n)).positiveStock
          = ((StockItemService.parseStockSummaryResponse (wrapBody n)).items.filter
              (fun i => i.closingQuantity > 0)).length
        ∧ (StockItemService.parseStockSummaryResponse (wrapBody n)).negativeStock
          = ((StockItemService.parseStockSummaryResponse (wrapBody n)).items.filter
              (fun i => i.closingQuantity < 0)).length
        ∧ (StockItemService.parseStockSummaryResponse (wrapBody n)).zeroStock
          = ((StockItemService.parseStockSummaryResponse (wrapBody n)).items.filter
              (fun i => i.closingQuantity = 0)).length)
    ∧ (∀ (n : VoucherSummaryNode) (o1 o2 : List (Str × Str)),
        VoucherService.parseVoucherSummaryResponse
            (wrapBody { n with otherChildren := o1 })
          = VoucherService.parseVoucherSummaryResponse
              (wrapBody { n with otherChildren := o2 }))
    ∧ (∀ n : VoucherSummaryNode,
        VoucherService.parseVoucherSummaryResponse (wrapBody n)
          = some ⟨jsValOrZero n.TOTALCOUNT, jsValOrZero n.TOTALAMOUNT,
                  jsValOrZero n.AVERAGEAMOUNT⟩) := by
  refine ⟨?_, ?_, ?_, ?_⟩
  · intro n v1 v2; rfl
  · intro n; exact ⟨rfl, rfl, rfl, rfl, rfl⟩
  · intro n o1 o2; rfl
  · intro n; rfl

/-- The remainder of `voucherT1S1` after the `ACTION="Create"` directive. -/
def voucherT1S1tail : Str := " OBJVIEW=\"Accounting Voucher View\">\n                <OLDAUDITENTRYIDS.LIST TYPE=\"Number\">\n                    <OLDAUDITENTRYIDS>-1</OLDAUDITENTRYIDS>\n                </OLDAUDITENTRYIDS.LIST>\n                <DATE>".data

/-- The remainder of `ledConnT1S1` after the `ACTION="Create"` directive. -/
def ledConnT1S1tail : Str := " RESERVEDNAME=\"\">\n                <NAME>".data

set_option maxRecDepth 40000 in
theorem voucherT1S1_split :
    voucherT1S1 = "\" ".data ++ ("ACTION=\"Create\"".data ++ voucherT1S1tail) := by
  decide

set_option maxRecDepth 40000 in
theorem ledConnT1S1_split :
    ledConnT1S1 = "\" ".data ++ ("ACTION=\"Create\"".data ++ ledConnT1S1tail) := by
  decide

theorem occursIn_mono (pat s t : Str) (h : occursIn pat t = true) :
    occursIn pat (s ++ t) = true := by
  induction s with
  | nil => simpa using h
  | cons c cs ih => simp [occursIn, ih]

theorem occursIn_self_append (pat B : Str) : occursIn pat (pat ++ B) = true :=
  occursIn_of_leadsWith _ _ (leadsWith_append_self pat B)

/-- The stock item used in the C7 counterexample. -/
def c7Stock : StockData :=
  ⟨some "Widget".data, some "Raw Materials".data, some "Nos".data, none, none⟩

set_option maxRecDepth 100000 in
theorem c7Stock_no_create_directive :
    occursIn "ACTION=\"Create\"".data (XmlBuilder.buildStockItemXml c7Stock) = false := by
  decide

set_option maxRecDepth 100000 in
/-- C7 counterexample: `buildStockItemXml` emits no `ACTION` attribute at
all, so `updateStockItem`'s textual substitution leaves the XML unchanged
and the `STOCKITEM` element sent for an update carries no
`ACTION="Alter"` — the claim fails for `updateStockItem`. -/
theorem C7_stockItem_update_counterexample :
    StockItemService.updateStockItemXml c7Stock = XmlBuilder.buildStockItemXml c7Stock
    ∧ occursIn "ACTION=\"Alter\"".data (StockItemService.updateStockItemXml c7Stock)
        = false := by
  have h := c7Stock_no_create_directive
  refine ⟨jsReplaceFirst_of_not_occurs _ _ _ h, ?_⟩
  rw [StockItemService.updateStockItemXml, jsReplaceFirst_of_not_occurs _ _ _ h]
  decide

/-- C7 (amended): for voucher updates (and for the connector-variant
ledger builder, whose `LEDGER` element carries `ACTION="Create"`), the
update XML equals the create builder's output with the create directive
textually substituted by the alter directive and is otherwise unchanged;
for stock items (and the utils ledger builder) the create XML contains no
`ACTION` directive, so the substitution is the identity (see the
counterexample). -/
theorem C7_update_action_swap_amended :
    (∀ v : VoucherData, ∃ A B,
        XmlBuilder.buildVoucherXml v = A ++ "ACTION=\"Create\"".data ++ B
        ∧ VoucherService.updateVoucherXml v = A ++ "ACTION=\"Alter\"".data ++ B)
    ∧ (∀ l : LedgerData, ∃ A B,
        XmlBuilder2.buildLedgerXml l = A ++ "ACTION=\"Create\"".data ++ B
        ∧ LedgerService.updateLedgerXmlConn l = A ++ "ACTION=\"Alter\"".data ++ B) := by
  constructor
  · intro v
    have hocc : occursIn "ACTION=\"Create\"".data (XmlBuilder.buildVoucherXml v)
        = true := by
      simp only [XmlBuilder.buildVoucherXml, voucherT1S1_split, List.append_assoc]
      exact occursIn_mono _ _ _ (occursIn_mono _ _ _ (occursIn_mono _ _ _
        (occursIn_self_append _ _)))
    obtain ⟨A, B, h1, h2⟩ :=
      jsReplaceFirst_decomp "ACTION=\"Create\"".data "ACTION=\"Alter\"".data _ hocc
    exact ⟨A, B, h1, h2⟩
  · intro l
    have hocc : occursIn "ACTION=\"Create\"".data (XmlBuilder2.buildLedgerXml l)
        = true := by
      simp only [XmlBuilder2.buildLedgerXml, ledConnT1S1_split, List.append_assoc]
      exact occursIn_mono _ _ _ (occursIn_mono _ _ _ (occursIn_mono _ _ _
        (occursIn_self_append _ _)))
    obtain ⟨A, B, h1, h2⟩ :=
      jsReplaceFirst_decomp "ACTION=\"Create\"".data "ACTION=\"Alter\"".data _ hocc
    exact ⟨A, B, h1, h2⟩

/-- An entry that fails the per-entry validation: missing/empty ledger
name, non-numeric amount, or zero amount. -/
def entryBad (e : VoucherEntryData) : Bool :=
  !truthyOpt e.ledgerName || e.amount.isNone || decide (e.amount = some 0)

/-- The claim's validation condition: a required field is missing, the
entry list is short, an entry is bad, or the signed amounts sum to more
than the 0.01 tolerance away from zero. -/
def voucherInvalid (v : VoucherData) : Bool :=
  !truthyOpt v.voucherType || v.date.isNone || v.ledgerEntries.isNone
  || decide ((v.ledgerEntries.getD []).length < 2)
  || (v.ledgerEntries.getD []).any entryBad
  || decide (|VoucherService.entriesSum (v.ledgerEntries.getD [])| > 1 / 100)

theorem validateEntries_ok_iff (es : List VoucherEntryData) :
    VoucherService.validateEntries es = .ok () ↔ es.any entryBad = false := by
  induction es with
  | nil => simp [VoucherService.validateEntries]
  | cons e rest ih =>
    simp only [VoucherService.validateEntries, List.any_cons, entryBad]
    by_cases h1 : truthyOpt e.ledgerName
    · by_cases h2 : e.amount.isNone = true
      · simp [h1, h2]
      · by_cases h3 : e.amount = some 0
        · simp [h1, h2, h3]
        · simp [h1, h2, h3, ih]
    · simp [h1]

theorem validateEntries_error_or_ok (es : List VoucherEntryData) :
    VoucherService.validateEntries es = .ok ()
    ∨ ∃ m, VoucherService.validateEntries es = .error m := by
  induction es with
  | nil => exact .inl rfl
  | cons e rest ih =>
    simp only [VoucherService.validateEntries]
    by_cases h1 : truthyOpt e.ledgerName
    · by_cases h2 : (e.amount.isNone || e.amount = some 0 : Bool) = true
      · exact .inr ⟨"Each ledger entry must have a non-zero amount".data, by simp [h1, h2]⟩
      · rcases ih with h | ⟨m, h⟩
        · exact .inl (by simp [h1, h2, h])
        · exact .inr ⟨m, by simp [h1, h2, h]⟩
    · exact .inr ⟨"Each ledger entry must have a ledger name".data, by simp [h1]⟩

theorem validateVoucherData_ok_iff (v : VoucherData) :
    VoucherService.validateVoucherData v = .ok () ↔ voucherInvalid v = false := by
  simp only [VoucherService.validateVoucherData, voucherInvalid]
  by_cases h1 : truthyOpt v.voucherType
  · by_cases h2 : v.date.isNone = true
    · simp [h1, h2]
    · by_cases h3 : v.ledgerEntries.isNone = true
      · simp [h1, h2, h3]
      · by_cases h4 : (v.ledgerEntries.getD []).length < 2
        · simp [h1, h2, h3, h4]
        · rcases validateEntries_error_or_ok (v.ledgerEntries.getD []) with hok | ⟨m, herr⟩
          · have hany := (validateEntries_ok_iff _).mp hok
            by_cases h5 : |VoucherService.entriesSum (v.ledgerEntries.getD [])| > 1 / 100
            · simp [h1, h2, h3, h4, h5, hok, hany]
            · simp [h1, h2, h3, h4, h5, hok, hany]
          · have hany : (v.ledgerEntries.getD []).any entryBad = true := by
              by_contra hc
              have := (validateEntries_ok_iff (v.ledgerEntries.getD [])).mpr
                (Bool.not_eq_true _ ▸ hc)
              rw [this] at herr
              cases herr
            simp [h1, h2, h3, h4, herr, hany]
  · simp [h1]

theorem createVoucherXml_error_iff (v : VoucherData) :
    (∃ e, VoucherService.createVoucherXml v = .error e)
      ↔ VoucherService.validateVoucherData v ≠ .ok () := by
  unfold VoucherService.createVoucherXml
  cases h : VoucherService.validateVoucherData v with
  | error e => simp [h]
  | ok u => cases u; simp [h]

/-- C1: `createVoucher` raises a validation error — before building any
XML — exactly when a required field is missing, there are fewer than two
entries, an entry lacks a ledger name or has a zero or non-numeric
amount, or the signed amounts sum to more than 0.01 away from zero; and
on every voucher satisfying the requirements it succeeds with the built
voucher XML wrapped in an import request. -/
theorem C1_createVoucher_validation (v : VoucherData) :
    ((∃ e, VoucherService.createVoucherXml v = .error e) ↔ voucherInvalid v = true)
    ∧ (voucherInvalid v = false →
        VoucherService.createVoucherXml v
          = .ok (XmlBuilder.buildImportRequest (XmlBuilder.buildVoucherXml v))) := by
  constructor
  · rw [createVoucherXml_error_iff]
    rw [show (VoucherService.validateVoucherData v ≠ .ok ())
        ↔ ¬ (voucherInvalid v = false) from not_congr (validateVoucherData_ok_iff v)]
    simp
  · intro h
    have hok := (validateVoucherData_ok_iff v).mpr h
    unfold VoucherService.createVoucherXml
    rw [hok]

/-- A balanced two-entry sales voucher. -/
def c1GoodVoucher : VoucherData :=
  ⟨some "Sales".data, some ⟨15, 8, 2023⟩, some "S001".data, none,
   some [⟨some "A".data, some 118, none, none⟩,
         ⟨some "B".data, some (-118), none, none⟩]⟩

/-- An otherwise-identical voucher whose amounts sum to -1 (outside the
tolerance). -/
def c1BadVoucher : VoucherData :=
  ⟨some "Sales".data, some ⟨15, 8, 2023⟩, some "S001".data, none,
   some [⟨some "A".data, some 118, none, none⟩,
         ⟨some "B".data, some (-119), none, none⟩]⟩

/-- Witness for C1: the balanced voucher builds, the imbalanced one is
rejected. -/
theorem C1_createVoucher_validation_witness :
    VoucherService.createVoucherXml c1GoodVoucher
      = .ok (XmlBuilder.buildImportRequest (XmlBuilder.buildVoucherXml c1GoodVoucher))
    ∧ (∃ e, VoucherService.createVoucherXml c1BadVoucher = .error e) :=
  ⟨(C1_createVoucher_validation c1GoodVoucher).2 (by
      norm_num [voucherInvalid, c1GoodVoucher, entryBad, truthyOpt, truthy,
        VoucherService.entriesSum]),
   (C1_createVoucher_validation c1BadVoucher).1.mpr (by
      norm_num [voucherInvalid, c1BadVoucher, entryBad, truthyOpt, truthy,
        VoucherService.entriesSum])⟩
